import Mathlib

/-!
# Verification of the BNKRORG/exchanges authenticated-request engine

Shallow embedding, in Lean 4, of the parts of the repository that the
specification's claims are about:

* the Binance rate-limit-aware dispatch loop (src/binance/src/client.rs,
  src/binance/src/api.rs), including an exact model of the one f64
  computation it performs (round-to-nearest-even over rationals);
* the OKX request signing (src/okx/src/auth.rs, src/okx/src/util.rs) with a
  full executable HMAC-SHA256 and standard base64;
* the Bitfinex payload signing (src/bitfinex/src/auth.rs,
  src/bitfinex/src/client.rs) with full executable SHA3-384 (Keccak) and, for
  comparison with the specified scheme, SHA-384 (FIPS 180-4);
* the positional-array and keyed-object JSON decoders
  (src/bitfinex/src/response.rs, src/okx/src/response.rs) over an explicit
  JSON value type with exact rational numerals;
* the OKX error-envelope extraction (src/okx/src/client.rs);
* the Coinbase pagination loop (src/coinbase/src/app/client.rs);
* the redacting Debug renderings of the three credential types.

Machine integers are modelled as Nat with explicit wrap-around (% 2^32,
% 2^64) where the code relies on it; byte strings are List Nat (all strings
signed by this repository are ASCII, so UTF-8 bytes coincide with the code
points); fallible decoding returns Option.
-/

/-! ## Bytes, hex, base64 -/

/-- Bytes of a string. All strings the embedded code signs or decodes are
ASCII, where UTF-8 bytes coincide with the code points. -/
def strBytes (s : String) : List Nat :=
  s.data.map Char.toNat

/-- Value of a non-empty all-digit character list (none otherwise). -/
def decDigitsVal : List Char → Option Nat
  | [] => none
  | cs => cs.foldl (fun acc c =>
      acc.bind (fun n => if c.isDigit then some (n * 10 + (c.toNat - 48)) else none))
      (some 0)

/-- Lower-case hex digit. -/
def hexDigit (n : Nat) : Char :=
  "0123456789abcdef".data.getD n ' '

/-- Lower-case hex encoding of a byte list (hex::encode in the source). -/
def hexEncode (bs : List Nat) : String :=
  String.mk (bs.flatMap (fun b => [hexDigit (b / 16), hexDigit (b % 16)]))

/-- Standard base64 alphabet. -/
def b64Chars : List Char :=
  "ABCDEFGHIJKLMNOPQRSTUVWXYZabcdefghijklmnopqrstuvwxyz0123456789+/".data

/-- Standard base64 (with padding) of a byte list
(base64::engine::general_purpose::STANDARD in the source). -/
def base64Encode : List Nat → List Char
  | a :: b :: c :: rest =>
      let n := a * 65536 + b * 256 + c
      b64Chars.getD (n / 262144) ' ' :: b64Chars.getD (n / 4096 % 64) ' ' ::
      b64Chars.getD (n / 64 % 64) ' ' :: b64Chars.getD (n % 64) ' ' ::
      base64Encode rest
  | [a, b] =>
      let n := a * 65536 + b * 256
      [b64Chars.getD (n / 262144) ' ', b64Chars.getD (n / 4096 % 64) ' ',
       b64Chars.getD (n / 64 % 64) ' ', '=']
  | [a] =>
      let n := a * 65536
      [b64Chars.getD (n / 262144) ' ', b64Chars.getD (n / 4096 % 64) ' ', '=', '=']
  | [] => []

/-- Standard base64 encoding as a string. -/
def base64EncodeStr (bs : List Nat) : String :=
  String.mk (base64Encode bs)

/-! ## 32-bit word helpers (for SHA-256) -/

/-- Truncate to 32 bits. -/
def w32 (x : Nat) : Nat := x % 4294967296

/-- 32-bit addition. -/
def add32 (a b : Nat) : Nat := (a + b) % 4294967296

/-- 32-bit right rotation. -/
def rotr32 (n x : Nat) : Nat := ((x >>> n) ||| (x <<< (32 - n))) % 4294967296

/-- 32-bit complement. -/
def not32 (x : Nat) : Nat := 4294967295 ^^^ x

/-- Big-endian 4-byte encoding of a 32-bit word. -/
def be32 (x : Nat) : List Nat :=
  [x / 16777216 % 256, x / 65536 % 256, x / 256 % 256, x % 256]

/-- Big-endian 8-byte encoding of a 64-bit value. -/
def be64 (x : Nat) : List Nat :=
  be32 (x / 4294967296 % 4294967296) ++ be32 (x % 4294967296)

/-! ## SHA-256 (FIPS 180-4) -/

/-- SHA-256 round constants. -/
def sha256K : List Nat :=
  [1116352408, 1899447441, 3049323471, 3921009573, 961987163, 1508970993,
   2453635748, 2870763221, 3624381080, 310598401, 607225278, 1426881987,
   1925078388, 2162078206, 2614888103, 3248222580, 3835390401, 4022224774,
   264347078, 604807628, 770255983, 1249150122, 1555081692, 1996064986,
   2554220882, 2821834349, 2952996808, 3210313671, 3336571891, 3584528711,
   113926993, 338241895, 666307205, 773529912, 1294757372, 1396182291,
   1695183700, 1986661051, 2177026350, 2456956037, 2730485921, 2820302411,
   3259730800, 3345764771, 3516065817, 3600352804, 4094571909, 275423344,
   430227734, 506948616, 659060556, 883997877, 958139571, 1322822218,
   1537002063, 1747873779, 1955562222, 2024104815, 2227730452, 2361852424,
   2428436474, 2756734187, 3204031479, 3329325298]

/-- SHA-256 initial hash value. -/
def sha256H0 : List Nat :=
  [1779033703, 3144134277, 1013904242, 2773480762,
   1359893119, 2600822924, 528734635, 1541459225]

/-- Merkle–Damgård padding: append 128, zeros, then the 64-bit big-endian
bit length, to a multiple of 64 bytes. -/
def sha2Pad64 (msg : List Nat) : List Nat :=
  msg ++ 128 :: List.replicate ((64 + 55 - msg.length % 64) % 64) 0
      ++ be64 (msg.length * 8)

/-- Big-endian 32-bit words of a byte list. -/
def bytesToWords32 : List Nat → List Nat
  | a :: b :: c :: d :: rest =>
      (a * 16777216 + b * 65536 + c * 256 + d) :: bytesToWords32 rest
  | _ => []

/-- Split a byte list into 64-byte blocks. -/
def blocks64 (bs : List Nat) : List (List Nat) :=
  (List.range (bs.length / 64)).map (fun i => (bs.drop (64 * i)).take 64)

/-- SHA-256 message schedule: extend 16 words to 64. -/
def sha256Schedule (w : List Nat) : List Nat :=
  (List.range 48).foldl
    (fun acc _ =>
      let t := acc.length
      let s0 :=
        rotr32 7 (acc.getD (t - 15) 0) ^^^ rotr32 18 (acc.getD (t - 15) 0) ^^^
          (acc.getD (t - 15) 0 >>> 3)
      let s1 :=
        rotr32 17 (acc.getD (t - 2) 0) ^^^ rotr32 19 (acc.getD (t - 2) 0) ^^^
          (acc.getD (t - 2) 0 >>> 10)
      acc ++ [add32 (add32 s1 (acc.getD (t - 7) 0)) (add32 s0 (acc.getD (t - 16) 0))])
    w

/-- One SHA-256 compression of a 64-word schedule into the running state. -/
def sha256Compress (h : List Nat) (w : List Nat) : List Nat :=
  let final := (List.range 64).foldl
    (fun s t =>
      let a := s.getD 0 0
      let b := s.getD 1 0
      let c := s.getD 2 0
      let d := s.getD 3 0
      let e := s.getD 4 0
      let f := s.getD 5 0
      let g := s.getD 6 0
      let hh := s.getD 7 0
      let bs1 := rotr32 6 e ^^^ rotr32 11 e ^^^ rotr32 25 e
      let ch := (e &&& f) ^^^ (not32 e &&& g)
      let t1 := add32 (add32 (add32 hh bs1) ch)
                      (add32 (sha256K.getD t 0) (w.getD t 0))
      let bs0 := rotr32 2 a ^^^ rotr32 13 a ^^^ rotr32 22 a
      let mj := (a &&& b) ^^^ (a &&& c) ^^^ (b &&& c)
      let t2 := add32 bs0 mj
      [add32 t1 t2, a, b, c, add32 d t1, e, f, g])
    h
  List.zipWith add32 h final

/-- SHA-256 digest (32 bytes) of a byte list. -/
def sha256 (msg : List Nat) : List Nat :=
  let hf := (blocks64 (sha2Pad64 msg)).foldl
    (fun h blk => sha256Compress h (sha256Schedule (bytesToWords32 blk))) sha256H0
  hf.flatMap be32

/-! ## HMAC (RFC 2104), generic in the hash and its block size -/

/-- HMAC over an arbitrary hash function with the given block size. -/
def hmac (hash : List Nat → List Nat) (blockSize : Nat) (key msg : List Nat) :
    List Nat :=
  let k0 := if key.length > blockSize then hash key else key
  let k := k0 ++ List.replicate (blockSize - k0.length) 0
  hash ((k.map (fun b => b ^^^ 92)) ++ hash ((k.map (fun b => b ^^^ 54)) ++ msg))

/-- HMAC-SHA256 (block size 64), as used by the OKX and Binance signers. -/
def hmacSha256 (key msg : List Nat) : List Nat :=
  hmac sha256 64 key msg

/-! ## 64-bit word helpers (for SHA-384 and Keccak) -/

/-- Truncate to 64 bits. -/
def w64 (x : Nat) : Nat := x % 18446744073709551616

/-- 64-bit addition. -/
def add64 (a b : Nat) : Nat := (a + b) % 18446744073709551616

/-- 64-bit right rotation. -/
def rotr64 (n x : Nat) : Nat := ((x >>> n) ||| (x <<< (64 - n))) % 18446744073709551616

/-- 64-bit left rotation. -/
def rotl64 (n x : Nat) : Nat := ((x <<< n) ||| (x >>> (64 - n))) % 18446744073709551616

/-- 64-bit complement. -/
def not64 (x : Nat) : Nat := 18446744073709551615 ^^^ x

/-- Big-endian 8-byte encoding of a 64-bit word. -/
def be64W (x : Nat) : List Nat :=
  [x / 72057594037927936 % 256, x / 281474976710656 % 256,
   x / 1099511627776 % 256, x / 4294967296 % 256,
   x / 16777216 % 256, x / 65536 % 256, x / 256 % 256, x % 256]

/-- Little-endian 8-byte encoding of a 64-bit word. -/
def le64W (x : Nat) : List Nat :=
  [x % 256, x / 256 % 256, x / 65536 % 256, x / 16777216 % 256,
   x / 4294967296 % 256, x / 1099511627776 % 256,
   x / 281474976710656 % 256, x / 72057594037927936 % 256]

/-! ## SHA-384 (FIPS 180-4, the SHA-2 family member named by the spec) -/

/-- SHA-512 family round constants. -/
def sha512K : List Nat :=
  [4794697086780616226, 8158064640168781261, 13096744586834688815, 16840607885511220156,
   4131703408338449720, 6480981068601479193, 10538285296894168987, 12329834152419229976,
   15566598209576043074, 1334009975649890238, 2608012711638119052, 6128411473006802146,
   8268148722764581231, 9286055187155687089, 11230858885718282805, 13951009754708518548,
   16472876342353939154, 17275323862435702243, 1135362057144423861, 2597628984639134821,
   3308224258029322869, 5365058923640841347, 6679025012923562964, 8573033837759648693,
   10970295158949994411, 12119686244451234320, 12683024718118986047, 13788192230050041572,
   14330467153632333762, 15395433587784984357, 489312712824947311, 1452737877330783856,
   2861767655752347644, 3322285676063803686, 5560940570517711597, 5996557281743188959,
   7280758554555802590, 8532644243296465576, 9350256976987008742, 10552545826968843579,
   11727347734174303076, 12113106623233404929, 14000437183269869457, 14369950271660146224,
   15101387698204529176, 15463397548674623760, 17586052441742319658, 1182934255886127544,
   1847814050463011016, 2177327727835720531, 2830643537854262169, 3796741975233480872,
   4115178125766777443, 5681478168544905931, 6601373596472566643, 7507060721942968483,
   8399075790359081724, 8693463985226723168, 9568029438360202098, 10144078919501101548,
   10430055236837252648, 11840083180663258601, 13761210420658862357, 14299343276471374635,
   14566680578165727644, 15097957966210449927, 16922976911328602910, 17689382322260857208,
   500013540394364858, 748580250866718886, 1242879168328830382, 1977374033974150939,
   2944078676154940804, 3659926193048069267, 4368137639120453308, 4836135668995329356,
   5532061633213252278, 6448918945643986474, 6902733635092675308, 7801388544844847127]

/-- SHA-384 initial hash value. -/
def sha384H0 : List Nat :=
  [14680500436340154072, 7105036623409894663, 10473403895298186519, 1526699215303891257,
   7436329637833083697, 10282925794625328401, 15784041429090275239, 5167115440072839076]

/-- SHA-512 family padding to a multiple of 128 bytes with a 128-bit length
field (messages here are far shorter than 2^64 bits, so the high half is 0). -/
def sha2Pad128 (msg : List Nat) : List Nat :=
  msg ++ 128 :: List.replicate ((128 + 111 - msg.length % 128) % 128) 0
      ++ List.replicate 8 0 ++ be64 (msg.length * 8)

/-- Big-endian 64-bit words of a byte list. -/
def bytesToWords64 : List Nat → List Nat
  | a :: b :: c :: d :: e :: f :: g :: h :: rest =>
      (((((((a * 256 + b) * 256 + c) * 256 + d) * 256 + e) * 256 + f) * 256 + g)
        * 256 + h) :: bytesToWords64 rest
  | _ => []

/-- Split a byte list into 128-byte blocks. -/
def blocks128 (bs : List Nat) : List (List Nat) :=
  (List.range (bs.length / 128)).map (fun i => (bs.drop (128 * i)).take 128)

/-- SHA-512 family message schedule: extend 16 words to 80. -/
def sha512Schedule (w : List Nat) : List Nat :=
  (List.range 64).foldl
    (fun acc _ =>
      let t := acc.length
      let s0 :=
        rotr64 1 (acc.getD (t - 15) 0) ^^^ rotr64 8 (acc.getD (t - 15) 0) ^^^
          (acc.getD (t - 15) 0 >>> 7)
      let s1 :=
        rotr64 19 (acc.getD (t - 2) 0) ^^^ rotr64 61 (acc.getD (t - 2) 0) ^^^
          (acc.getD (t - 2) 0 >>> 6)
      acc ++ [add64 (add64 s1 (acc.getD (t - 7) 0)) (add64 s0 (acc.getD (t - 16) 0))])
    w

/-- One SHA-512 family compression of an 80-word schedule. -/
def sha512Compress (h : List Nat) (w : List Nat) : List Nat :=
  let final := (List.range 80).foldl
    (fun s t =>
      let a := s.getD 0 0
      let b := s.getD 1 0
      let c := s.getD 2 0
      let d := s.getD 3 0
      let e := s.getD 4 0
      let f := s.getD 5 0
      let g := s.getD 6 0
      let hh := s.getD 7 0
      let bs1 := rotr64 14 e ^^^ rotr64 18 e ^^^ rotr64 41 e
      let ch := (e &&& f) ^^^ (not64 e &&& g)
      let t1 := add64 (add64 (add64 hh bs1) ch)
                      (add64 (sha512K.getD t 0) (w.getD t 0))
      let bs0 := rotr64 28 a ^^^ rotr64 34 a ^^^ rotr64 39 a
      let mj := (a &&& b) ^^^ (a &&& c) ^^^ (b &&& c)
      let t2 := add64 bs0 mj
      [add64 t1 t2, a, b, c, add64 d t1, e, f, g])
    h
  List.zipWith add64 h final

/-- SHA-384 digest (48 bytes) of a byte list. -/
def sha384 (msg : List Nat) : List Nat :=
  let hf := (blocks128 (sha2Pad128 msg)).foldl
    (fun h blk => sha512Compress h (sha512Schedule (bytesToWords64 blk))) sha384H0
  (hf.take 6).flatMap be64W

/-- HMAC-SHA384 (block size 128). `Modelled from the spec:` this is the
digest the spec's "Header-signed HMAC-SHA384" scheme names (HMAC over the
FIPS 180-4 SHA-384); the repository's code does not implement it — it is
defined here to compare against what src/bitfinex/src/auth.rs computes. -/
def hmacSha384 (key msg : List Nat) : List Nat :=
  hmac sha384 128 key msg

/-! ## SHA3-384 (Keccak, FIPS 202) — the hash actually used by
src/bitfinex/src/auth.rs via the sha3 crate -/

/-- Keccak round constants. -/
def keccakRC : List Nat :=
  [1, 32898, 9223372036854808714, 9223372039002292224,
   32907, 2147483649, 9223372039002292353, 9223372036854808585,
   138, 136, 2147516425, 2147483658,
   2147516555, 9223372036854775947, 9223372036854808713, 9223372036854808579,
   9223372036854808578, 9223372036854775936, 32778, 9223372039002259466,
   9223372039002292353, 9223372036854808704, 2147483649, 9223372039002292232]

/-- Keccak rotation offset of the lane at index x + 5y. -/
def keccakRot : Nat → Nat
  | 0 => 0
  | 1 => 1
  | 2 => 62
  | 3 => 28
  | 4 => 27
  | 5 => 36
  | 6 => 44
  | 7 => 6
  | 8 => 55
  | 9 => 20
  | 10 => 3
  | 11 => 10
  | 12 => 43
  | 13 => 25
  | 14 => 39
  | 15 => 41
  | 16 => 45
  | 17 => 15
  | 18 => 21
  | 19 => 8
  | 20 => 18
  | 21 => 2
  | 22 => 61
  | 23 => 56
  | 24 => 14
  | _ => 0

/-- Keccak θ step. -/
def keccakTheta (a : List Nat) : List Nat :=
  let c := (List.range 5).map (fun x =>
    a.getD x 0 ^^^ a.getD (x + 5) 0 ^^^ a.getD (x + 10) 0 ^^^
      a.getD (x + 15) 0 ^^^ a.getD (x + 20) 0)
  let d := (List.range 5).map (fun x =>
    c.getD ((x + 4) % 5) 0 ^^^ rotl64 1 (c.getD ((x + 1) % 5) 0))
  (List.range 25).map (fun i => a.getD i 0 ^^^ d.getD (i % 5) 0)

/-- Keccak ρ and π steps combined: the lane at target index i = y + 5·((2x+3y) mod 5)
is the rotated source lane at x + 5y; the source x is recovered as
3·(i/5 + 2·(i mod 5)) mod 5. -/
def keccakRhoPi (a : List Nat) : List Nat :=
  (List.range 25).map (fun i =>
    let y := i % 5
    let ny := i / 5
    let x := (3 * (ny + 2 * y)) % 5
    rotl64 (keccakRot (x + 5 * y)) (a.getD (x + 5 * y) 0))

/-- Keccak χ step. -/
def keccakChi (b : List Nat) : List Nat :=
  (List.range 25).map (fun i =>
    let x := i % 5
    let y := i / 5
    b.getD i 0 ^^^ (not64 (b.getD ((x + 1) % 5 + 5 * y) 0) &&&
      b.getD ((x + 2) % 5 + 5 * y) 0))

/-- One Keccak round (θ, ρ, π, χ, ι). -/
def keccakRound (a : List Nat) (rc : Nat) : List Nat :=
  let c := keccakChi (keccakRhoPi (keccakTheta a))
  (List.range 25).map (fun i => if i = 0 then c.getD 0 0 ^^^ rc else c.getD i 0)

/-- The Keccak-f[1600] permutation (24 rounds). -/
def keccakF (a : List Nat) : List Nat :=
  keccakRC.foldl keccakRound a

/-- SHA-3 multi-rate padding (domain byte 6, final bit 128) to a multiple
of the given rate. -/
def sha3Pad (rate : Nat) (msg : List Nat) : List Nat :=
  let q := rate - msg.length % rate
  if q = 1 then msg ++ [134]
  else msg ++ 6 :: List.replicate (q - 2) 0 ++ [128]

/-- Little-endian 64-bit lane from (up to) 8 bytes. -/
def leLane (bs : List Nat) : Nat :=
  bs.foldr (fun b acc => acc * 256 + b) 0

/-- Absorb one rate-sized block into the Keccak state. -/
def keccakAbsorb (rateLanes : Nat) (st : List Nat) (blk : List Nat) : List Nat :=
  keccakF ((List.range 25).map (fun i =>
    st.getD i 0 ^^^ (if i < rateLanes then leLane ((blk.drop (8 * i)).take 8) else 0)))

/-- SHA3-384 digest (48 bytes, rate 104 bytes = 13 lanes) of a byte list. -/
def sha3x384 (msg : List Nat) : List Nat :=
  let padded := sha3Pad 104 msg
  let nBlocks := padded.length / 104
  let st := (List.range nBlocks).foldl
    (fun st i => keccakAbsorb 13 st ((padded.drop (104 * i)).take 104))
    (List.replicate 25 0)
  ((st.take 6).flatMap le64W)

/-- HMAC-SHA3-384 (block size = rate = 104 bytes), i.e. Hmac of the sha3
crate Sha3_384 type, as instantiated by src/bitfinex/src/auth.rs. -/
def hmacSha3x384 (key msg : List Nat) : List Nat :=
  hmac sha3x384 104 key msg

/-! ## Exact model of IEEE-754 binary64 rounding (for the one f64 expression
in the Binance dispatch loop).

The rational arithmetic below is written with Rat.divInt over the numerator
and denominator fields (divInt normalizes its result), rather than the
+ * / type-class operations, so that every definition evaluates by kernel
reduction; qmul a b = a * b, qdiv a b = a / b, qsub a b = a - b as rational
numbers. -/

/-- Rational multiplication via divInt. -/
def qmul (a b : Rat) : Rat :=
  Rat.divInt (a.num * b.num) ((a.den : Int) * (b.den : Int))

/-- Rational division via divInt (a/b for b ≠ 0). -/
def qdiv (a b : Rat) : Rat :=
  Rat.divInt (a.num * (b.den : Int)) ((a.den : Int) * b.num)

/-- Rational subtraction via divInt. -/
def qsub (a b : Rat) : Rat :=
  Rat.divInt (a.num * (b.den : Int) - b.num * (a.den : Int))
    ((a.den : Int) * (b.den : Int))

/-- Rational absolute value. -/
def qabs (a : Rat) : Rat :=
  if a.num < 0 then Rat.divInt (-a.num) (a.den : Int) else a

/-- 2^e as a rational, for integer e. -/
def qpow2 (e : Int) : Rat :=
  if 0 ≤ e then Rat.divInt ((2 ^ e.toNat : Nat) : Int) 1
  else Rat.divInt 1 ((2 ^ (-e).toNat : Nat) : Int)

/-- Floor of log2 of a positive natural (structural recursion on a fuel
argument so it evaluates by kernel reduction; fuel n suffices since
log2 n < n for n ≥ 1). -/
def natLog2Fuel : Nat → Nat → Nat
  | 0, _ => 0
  | fuel + 1, n => if 2 ≤ n then natLog2Fuel fuel (n / 2) + 1 else 0

/-- Floor of log2 of a positive natural. -/
def natLog2 (n : Nat) : Nat :=
  natLog2Fuel n n

/-- Floor of log2 of a positive rational. -/
def ratLog2Floor (q : Rat) : Int :=
  let a := q.num.toNat
  let b := q.den
  let e0 : Int := (natLog2 a : Int) - (natLog2 b : Int)
  if q < qpow2 e0 then e0 - 1 else if q < qpow2 (e0 + 1) then e0 else e0 + 1

/-- Round a rational to the nearest integer, ties to even. -/
def roundHalfEven (q : Rat) : Int :=
  let n := Rat.floor q
  let f := qsub q (Rat.divInt n 1)
  if f < Rat.divInt 1 2 then n
  else if Rat.divInt 1 2 < f then n + 1
  else if n % 2 = 0 then n else n + 1

/-- Round a rational to the nearest IEEE-754 binary64 value (normal range:
53-bit significand, round to nearest, ties to even; the values in the
dispatch loop are all normal and far from overflow). -/
def fpRound (q : Rat) : Rat :=
  if q = 0 then 0
  else
    let s : Int := if q < 0 then -1 else 1
    let aq := qabs q
    let e := ratLog2Floor aq
    let sc := qpow2 (e - 52)
    qmul (Rat.divInt (s * roundHalfEven (qdiv aq sc)) 1) sc

/-- Truncation of a (non-negative) f64 value to u64, as the Rust cast
does for in-range values. -/
def f64ToU64 (q : Rat) : Nat :=
  (Rat.floor q).toNat

/-! ## Binance (src/binance/src/client.rs, api.rs, auth.rs, constant.rs) -/

namespace Binance

/-- src/binance/src/constant.rs: MAX_WEIGHT_PER_MIN. -/
def MAX_WEIGHT_PER_MIN : Nat := 6000

/-- src/binance/src/api.rs: the Spot API endpoints (non-commented variants). -/
inductive Spot where
  | exchangeInfo
  | account
  | myTrades
deriving DecidableEq

/-- src/binance/src/api.rs: Spot::http_path. -/
def Spot.http_path : Spot → String
  | .exchangeInfo => "/api/v3/exchangeInfo"
  | .account => "/api/v3/account"
  | .myTrades => "/api/v3/myTrades"

/-- src/binance/src/api.rs: Spot::request_weight
(ExchangeInfo | Account | MyTrades => 20). -/
def Spot.request_weight : Spot → Nat
  | .exchangeInfo => 20
  | .account => 20
  | .myTrades => 20

/-- src/binance/src/client.rs lines 161-166: extract the
X-MBX-USED-WEIGHT-1M header value; a missing header, or one that does not
parse as a u32, yields 0. -/
def parseUsedWeight (hdr : Option String) : Nat :=
  (hdr.bind (fun s =>
    let cs := match s.data with
      | '+' :: rest => rest
      | cs => cs
    match decDigitsVal cs with
    | some n => if n < 4294967296 then some n else none
    | none => none)).getD 0

/-- The values carried by the rate-limit warning event. -/
structure DeferInfo where
  used : Nat
  available : Nat
  deficit : Nat
  sleep_ms : Nat
deriving DecidableEq, Repr

/-- Outcome of one iteration of the send_req loop. -/
inductive RateDecision where
  | accept
  | defer (info : DeferInfo)
deriving DecidableEq, Repr

/-- src/binance/src/client.rs lines 160-193, one loop iteration: read the
used-weight header, compute available = MAX_WEIGHT_PER_MIN.saturating_sub(used)
(Nat subtraction is saturating); accept when available >= request_weight,
otherwise compute deficit = request_weight - available and
sleep_ms = ((deficit as f64 / 6000.0 * 60000.0) as u64).max(200), with the
two f64 operations modelled exactly by round-to-nearest-even. -/
def rateLimitDecision (usedHeader : Option String) (request_weight : Nat) :
    RateDecision :=
  let used := parseUsedWeight usedHeader
  let available := MAX_WEIGHT_PER_MIN - used
  if request_weight ≤ available then .accept
  else
    let deficit := request_weight - available
    let raw := f64ToU64 (fpRound (qmul (fpRound (qdiv (Rat.divInt (deficit : Int) 1)
      (Rat.divInt 6000 1))) (Rat.divInt 60000 1)))
    .defer ⟨used, available, deficit, max raw 200⟩

/-- src/binance/src/client.rs send_req, as the trace of requests it puts on
the wire: each iteration sends a clone of the same RequestBuilder; the list
argument gives the used-weight header of each successive response. The loop
exits as soon as one response is accepted. -/
def sendReqTrace (req : α) (request_weight : Nat) :
    List (Option String) → List α
  | [] => []
  | h :: rest =>
      req :: (match rateLimitDecision h request_weight with
              | .accept => []
              | .defer _ => sendReqTrace req request_weight rest)

/-- Lexicographic order on character lists by code point; for the ASCII
keys used here this coincides with the byte order Rust's BTreeMap uses. -/
def charsLe : List Char → List Char → Bool
  | [], _ => true
  | _ :: _, [] => false
  | c :: cs, d :: ds =>
      if c.toNat < d.toNat then true
      else if d.toNat < c.toNat then false
      else charsLe cs ds

/-- Insert into an assoc list keeping keys sorted (BTreeMap order). -/
def insertSorted (p : String × String) :
    List (String × String) → List (String × String)
  | [] => [p]
  | q :: rest =>
      if charsLe p.1.data q.1.data then p :: q :: rest else q :: insertSorted p rest

/-- `Modelled from the spec:` src/binance/src/util.rs (build_signed_request)
is not among the provided sources (only its caller in client.rs is). Per the
spec, the signed parameter string is the URL-encoded map serialized as sorted
key=value pairs joined by &, including recvWindow and the millisecond
timestamp. -/
def build_signed_request (parameters : List (String × String))
    (recv_window timestamp_ms : Nat) : String :=
  let ps := (("recvWindow", toString recv_window) ::
             ("timestamp", toString timestamp_ms) :: parameters).foldl
    (fun acc p => insertSorted p acc) []
  String.intercalate "&" (ps.map (fun p => p.1 ++ "=" ++ p.2))

/-- src/binance/src/client.rs lines 68-91 (sign_request): HMAC-SHA256 the
parameter string (empty when None) under the secret key, hex-encode, append
as the signature query parameter, and attach the query to the endpoint URL. -/
def sign_request (secret_key : String) (http_path : String)
    (request : Option String) : String :=
  let signature := hexEncode (hmacSha256 (strBytes secret_key)
    (strBytes (request.getD "")))
  let request_body := match request with
    | some r => r ++ "&signature=" ++ signature
    | none => "signature=" ++ signature
  http_path ++ "?" ++ request_body

/-- src/binance/src/client.rs get_signed followed by send_req: the URL is
signed once, before the loop; the trace of sent requests then repeats that
URL (src/binance/src/client.rs line 155 re-sends a clone of the builder). -/
def getSignedTrace (secret_key : String) (api : Spot)
    (request : Option String) (responses : List (Option String)) : List String :=
  sendReqTrace (sign_request secret_key api.http_path request)
    api.request_weight responses

end Binance

/-! ## A JSON value model (serde_json::Value) with exact rational numerals -/

/-- JSON values. Numbers are exact rationals: every JSON decimal literal is
exactly representable, so positional/keyed decoding can be stated without
floating-point noise. -/
inductive Json where
  | null
  | bool (b : Bool)
  | num (q : Rat)
  | str (s : String)
  | arr (xs : List Json)
  | obj (fields : List (String × Json))

/-- Look a key up in a JSON object field list (first match, serde order). -/
def jsonLookup (fields : List (String × Json)) (k : String) : Option Json :=
  (fields.find? (fun p => p.1 == k)).map (fun p => p.2)

/-- serde String deserialization: only a JSON string. -/
def Json.asString : Json → Option String
  | .str s => some s
  | _ => none

/-- serde f64 deserialization: any JSON number. -/
def Json.asF64 : Json → Option Rat
  | .num q => some q
  | _ => none

/-- serde u64 deserialization: an integral JSON number in [0, 2^64). -/
def Json.asU64 : Json → Option Nat
  | .num q =>
      if q.den = 1 ∧ 0 ≤ q.num ∧ q.num < 18446744073709551616 then
        some q.num.toNat
      else none
  | _ => none

/-- serde i8 deserialization: an integral JSON number in [-128, 127]. -/
def Json.asI8 : Json → Option Int
  | .num q => if q.den = 1 ∧ -128 ≤ q.num ∧ q.num ≤ 127 then some q.num else none
  | _ => none

/-- serde Option of u64: null decodes to none, otherwise the u64 rules. -/
def Json.asOptU64 : Json → Option (Option Nat)
  | .null => some none
  | v => (v.asU64).map some

/-- Parse a plain decimal string (optional sign, digits, optional fractional
part) to an exact rational, as Rust str::parse f64 accepts for the
decimal forms this repository receives; anything else fails. -/
def parseDecimalQ (s : String) : Option Rat :=
  let (sgn, cs) : Int × List Char :=
    match s.data with
    | '-' :: rest => (-1, rest)
    | '+' :: rest => (1, rest)
    | cs => (1, cs)
  match cs.splitOn '.' with
  | [ds] => (decDigitsVal ds).map (fun n => Rat.divInt (sgn * n) 1)
  | [ds, fs] =>
      if ds.isEmpty then
        (decDigitsVal fs).map (fun f =>
          Rat.divInt (sgn * f) ((10 ^ fs.length : Nat) : Int))
      else if fs.isEmpty then
        (decDigitsVal ds).map (fun n => Rat.divInt (sgn * n) 1)
      else
        (decDigitsVal ds).bind (fun n =>
          (decDigitsVal fs).map (fun f =>
            Rat.divInt (sgn * (n * 10 ^ fs.length + f)) ((10 ^ fs.length : Nat) : Int)))
  | _ => none

/-- common/src/deser.rs deserialize_string_to_f64: the JSON value must be a
string, and the string must parse as a float. -/
def decodeStringToF64 (j : Json) : Option Rat :=
  j.asString.bind parseDecimalQ

/-- Parse a decimal string as u64 (Rust u64::from_str: digits only,
optional leading +, must fit in 64 bits). -/
def parseU64String (s : String) : Option Nat :=
  let cs := match s.data with
    | '+' :: rest => rest
    | cs => cs
  (decDigitsVal cs).bind (fun n =>
    if n < 18446744073709551616 then some n else none)

/-- common/src/deser.rs deserialize_string_or_number_to_u64: a JSON string
parsed as u64, or directly a u64 JSON number. -/
def decodeStringOrNumberU64 (j : Json) : Option Nat :=
  match j with
  | .str s => parseU64String s
  | v => v.asU64

/-! ## Bitfinex positional-array decoding (src/bitfinex/src/response.rs) -/

namespace Bitfinex

/-- src/bitfinex/src/response.rs TradeArray: the 12 positional slots
(u64, String, u64, u64, f64, f64, String, f64, i8, f64, String, Option of u64). -/
structure TradeArray where
  f0 : Nat
  f1 : String
  f2 : Nat
  f3 : Nat
  f4 : Rat
  f5 : Rat
  f6 : String
  f7 : Rat
  f8 : Int
  f9 : Rat
  f10 : String
  f11 : Option Nat
deriving DecidableEq

/-- src/bitfinex/src/response.rs Trade. -/
structure Trade where
  id : Nat
  symbol : String
  timestamp : Nat
  order_id : Nat
  amount : Rat
  price : Rat
  order_type : String
  order_price : Rat
  is_maker : Bool
  fee : Rat
  fee_currency : String
  cid : Option Nat
deriving DecidableEq

/-- serde tuple-struct decoding of TradeArray: a JSON array of exactly 12
elements, each slot decoded at its fixed position. -/
def decodeTradeArray : Json → Option TradeArray
  | .arr [j0, j1, j2, j3, j4, j5, j6, j7, j8, j9, j10, j11] => do
      let v0 ← j0.asU64
      let v1 ← j1.asString
      let v2 ← j2.asU64
      let v3 ← j3.asU64
      let v4 ← j4.asF64
      let v5 ← j5.asF64
      let v6 ← j6.asString
      let v7 ← j7.asF64
      let v8 ← j8.asI8
      let v9 ← j9.asF64
      let v10 ← j10.asString
      let v11 ← j11.asOptU64
      some ⟨v0, v1, v2, v3, v4, v5, v6, v7, v8, v9, v10, v11⟩
  | _ => none

/-- src/bitfinex/src/response.rs lines 163-180,
impl From of TradeArray for Trade: positional mapping, with
is_maker = (arr.8 == 1). -/
def tradeFromArray (a : TradeArray) : Trade :=
  { id := a.f0
    symbol := a.f1
    timestamp := a.f2
    order_id := a.f3
    amount := a.f4
    price := a.f5
    order_type := a.f6
    order_price := a.f7
    is_maker := a.f8 == 1
    fee := a.f9
    fee_currency := a.f10
    cid := a.f11 }

/-- serde(from = TradeArray) deserialization of a Trade. -/
def decodeTrade (j : Json) : Option Trade :=
  (decodeTradeArray j).map tradeFromArray

end Bitfinex

/-! ## OKX (src/okx/src/auth.rs, util.rs, response.rs, client.rs) -/

namespace Okx

/-- A UTC wall-clock instant at millisecond precision (chrono DateTime
fields as the formatter consumes them). -/
structure UtcDateTime where
  year : Nat
  month : Nat
  day : Nat
  hour : Nat
  minute : Nat
  second : Nat
  millisecond : Nat
deriving DecidableEq

/-- Zero-pad a numeral to width 2. -/
def pad2 (n : Nat) : String :=
  if n < 10 then "0" ++ toString n else toString n

/-- Zero-pad a numeral to width 3. -/
def pad3 (n : Nat) : String :=
  if n < 10 then "00" ++ toString n
  else if n < 100 then "0" ++ toString n
  else toString n

/-- Zero-pad a numeral to width 4. -/
def pad4 (n : Nat) : String :=
  if n < 10 then "000" ++ toString n
  else if n < 100 then "00" ++ toString n
  else if n < 1000 then "0" ++ toString n
  else toString n

/-- src/okx/src/util.rs format_timestamp: chrono format string
%Y-%m-%dT%H:%M:%S.%3fZ, i.e. ISO-8601 with millisecond precision and a
literal Z suffix. -/
def format_timestamp (t : UtcDateTime) : String :=
  pad4 t.year ++ "-" ++ pad2 t.month ++ "-" ++ pad2 t.day ++ "T" ++
    pad2 t.hour ++ ":" ++ pad2 t.minute ++ ":" ++ pad2 t.second ++ "." ++
    pad3 t.millisecond ++ "Z"

/-- src/okx/src/auth.rs generate_signature: HMAC-SHA256 of
timestamp ++ method ++ path ++ body under the API secret, standard-base64
encoded. (The Rust function returns Result, but its only error source,
Hmac::new_from_slice, accepts keys of any length and never fails.) -/
def generate_signature (api_secret : String) (timestamp : UtcDateTime)
    (method path body : String) : String :=
  base64EncodeStr (hmacSha256 (strBytes api_secret)
    (strBytes (format_timestamp timestamp ++ method ++ path ++ body)))

/-- src/okx/src/response.rs DepositStatus (serde renames are the quoted
status-code strings). -/
inductive DepositStatus where
  | waitingForConfirmation
  | depositCredited
  | depositSuccessful
  | pendingDueToTemporaryDepositSuspension
  | matchAddressBlacklist
  | accountOrDepositIsFrozen
  | subAccountDepositInterception
  | kycLimit
  | pendingTravelRuleVendor
deriving DecidableEq, Repr

/-- The rename table of DepositStatus: status-code string to variant,
exactly the serde rename attributes of the source. -/
def depositStatusTable : List (String × DepositStatus) :=
  [("0", .waitingForConfirmation),
   ("1", .depositCredited),
   ("2", .depositSuccessful),
   ("8", .pendingDueToTemporaryDepositSuspension),
   ("11", .matchAddressBlacklist),
   ("12", .accountOrDepositIsFrozen),
   ("13", .subAccountDepositInterception),
   ("14", .kycLimit),
   ("17", .pendingTravelRuleVendor)]

/-- serde deserialization of DepositStatus from a JSON value: the quoted
code strings of the rename attributes; anything else is a decode error. -/
def decodeDepositStatus : Json → Option DepositStatus
  | .str s => (depositStatusTable.find? (fun p => p.1 == s)).map (fun p => p.2)
  | _ => none

/-- src/okx/src/response.rs WithdrawalStatus. -/
inductive WithdrawalStatus where
  | waitingWithdrawal
  | waitingManualReview
  | approved
  | withdrawing
  | waitingTransfer
  | pendingTransactionValidation
  | regulatoryDelay
  | canceling
  | canceled
  | failed
  | withdrawalSuccessful
  | pendingTravelRuleVendor
  | insufficientHotWalletBalance
deriving DecidableEq, Repr

/-- The rename/alias table of WithdrawalStatus, exactly the serde rename and
alias attributes of the source. -/
def withdrawalStatusTable : List (String × WithdrawalStatus) :=
  [("0", .waitingWithdrawal),
   ("4", .waitingManualReview),
   ("5", .waitingManualReview),
   ("6", .waitingManualReview),
   ("8", .waitingManualReview),
   ("9", .waitingManualReview),
   ("12", .waitingManualReview),
   ("7", .approved),
   ("1", .withdrawing),
   ("10", .waitingTransfer),
   ("15", .pendingTransactionValidation),
   ("16", .regulatoryDelay),
   ("-3", .canceling),
   ("-2", .canceled),
   ("-1", .failed),
   ("2", .withdrawalSuccessful),
   ("17", .pendingTravelRuleVendor),
   ("19", .insufficientHotWalletBalance)]

/-- serde deserialization of WithdrawalStatus (renames and aliases from the
source). -/
def decodeWithdrawalStatus : Json → Option WithdrawalStatus
  | .str s => (withdrawalStatusTable.find? (fun p => p.1 == s)).map (fun p => p.2)
  | _ => none

/-- src/okx/src/response.rs lines 122-129, deserialize_optional_enum
combined with serde(default): a missing field or JSON null yields none, and
an unrecognized value is swallowed by .ok() into none — this helper itself
never fails. -/
def decodeOptionalEnum (decodeT : Json → Option α) : Option Json → Option α
  | none => none
  | some .null => none
  | some v => decodeT v

/-- src/okx/src/response.rs DepositTransaction. -/
structure DepositTransaction where
  id : String
  currency : String
  amount : Rat
  state : Option DepositStatus
  tx_id : String
  timestamp : Nat
deriving DecidableEq

/-- serde deserialization of DepositTransaction: renamed keys depId, ccy,
amt (string-to-f64), state (optional tolerant enum), txId, ts
(string-or-number-to-u64); unknown keys are ignored. -/
def decodeDepositTransaction (j : Json) : Option DepositTransaction :=
  match j with
  | .obj o => do
      let id ← (jsonLookup o "depId").bind Json.asString
      let currency ← (jsonLookup o "ccy").bind Json.asString
      let amount ← (jsonLookup o "amt").bind decodeStringToF64
      let state := decodeOptionalEnum decodeDepositStatus (jsonLookup o "state")
      let tx_id ← (jsonLookup o "txId").bind Json.asString
      let timestamp ← (jsonLookup o "ts").bind decodeStringOrNumberU64
      some ⟨id, currency, amount, state, tx_id, timestamp⟩
  | _ => none

/-- src/okx/src/response.rs WithdrawalTransaction. -/
structure WithdrawalTransaction where
  id : String
  currency : String
  amount : Rat
  fee : Rat
  state : Option WithdrawalStatus
  tx_id : String
  timestamp : Nat
deriving DecidableEq

/-- serde deserialization of WithdrawalTransaction: renamed keys wdId, ccy,
amt, fee (string-to-f64), state (optional tolerant enum), txId, ts. -/
def decodeWithdrawalTransaction (j : Json) : Option WithdrawalTransaction :=
  match j with
  | .obj o => do
      let id ← (jsonLookup o "wdId").bind Json.asString
      let currency ← (jsonLookup o "ccy").bind Json.asString
      let amount ← (jsonLookup o "amt").bind decodeStringToF64
      let fee ← (jsonLookup o "fee").bind decodeStringToF64
      let state := decodeOptionalEnum decodeWithdrawalStatus (jsonLookup o "state")
      let tx_id ← (jsonLookup o "txId").bind Json.asString
      let timestamp ← (jsonLookup o "ts").bind decodeStringOrNumberU64
      some ⟨id, currency, amount, fee, state, tx_id, timestamp⟩
  | _ => none

/-- src/okx/src/response.rs OkxApiResponse: the code/msg/data envelope. -/
structure OkxApiResponse where
  code : String
  msg : String
  data : Json

/-- src/okx/src/response.rs OkxApiErrorData: the per-item error record,
keeping only the optional sMsg field. -/
structure OkxApiErrorData where
  s_msg : Option String
deriving DecidableEq

/-- serde deserialization of one OkxApiErrorData: a JSON object whose
optional sMsg field must be a string when present; unknown keys ignored. -/
def decodeOkxApiErrorData : Json → Option OkxApiErrorData
  | .obj o =>
      match jsonLookup o "sMsg" with
      | none => some ⟨none⟩
      | some .null => some ⟨none⟩
      | some (.str s) => some ⟨some s⟩
      | some _ => none
  | _ => none

/-- serde deserialization of Vec of OkxApiErrorData. -/
def decodeOkxApiErrorList (j : Json) : Option (List OkxApiErrorData) :=
  match j with
  | .arr xs => xs.mapM decodeOkxApiErrorData
  | _ => none

/-- The errors this model can surface from send_request's HTTP-200 branch. -/
inductive OkxError where
  | json
  | okxApiError (code message smg : String)
deriving DecidableEq

/-- src/okx/src/client.rs lines 142-151: extract the detail string from the
envelope's data field — the first error item's sMsg when the list parses
(with a fixed fallback when the list is empty or the item carries no sMsg),
or a fixed could-not-parse message when the parse fails. -/
def extractSmg (data : Json) : String :=
  match decodeOkxApiErrorList data with
  | some errors =>
      ((errors.head?).bind (fun e => e.s_msg)).getD "Unknown error"
  | none => "Failed to parse error message"

/-- src/okx/src/client.rs lines 129-159, the HTTP-200 branch of
send_request: when the envelope code is "0" the data payload is decoded and
returned; otherwise the call fails with OkxApiError carrying the envelope's
code and msg and the extracted detail string. -/
def handleOkResponse (decodeData : Json → Option α) (r : OkxApiResponse) :
    Except OkxError α :=
  if r.code = "0" then
    match decodeData r.data with
    | some v => .ok v
    | none => .error .json
  else
    .error (.okxApiError r.code r.msg (extractSmg r.data))

/-- src/okx/src/auth.rs OkxApiCredentials. -/
structure OkxApiCredentials where
  api_key : String
  api_secret : String
  passphrase : String
deriving DecidableEq

end Okx

/-! ## Bitfinex signing and headers (src/bitfinex/src/auth.rs, client.rs,
constant.rs) -/

namespace Bitfinex

/-- src/bitfinex/src/constant.rs: API_SIGNATURE_PATH. -/
def API_SIGNATURE_PATH : String := "/api/v2/auth/r/"

/-- src/bitfinex/src/client.rs Api (authenticated endpoints). -/
inductive Api where
  | wallets
  | movements (currency : String)
  | trades

/-- src/bitfinex/src/client.rs Api::url_path. -/
def Api.url_path : Api → String
  | .wallets => "/v2/auth/r/wallets"
  | .movements currency => "/v2/auth/r/movements/" ++ currency ++ "/hist"
  | .trades => "/v2/auth/r/trades/hist"

/-- src/bitfinex/src/auth.rs BitfinexAuth (single ApiKeys variant). -/
structure BitfinexAuth where
  api_key : String
  api_secret : String
deriving DecidableEq

/-- src/bitfinex/src/auth.rs sign_payload: HMAC of the payload under the
secret using the sha3 crate Sha3_384 hash (HmacSha384 = Hmac of Sha3_384),
hex-encoded. Note: this is Keccak SHA3-384, not the FIPS 180-4 SHA-384. -/
def sign_payload (secret payload : String) : String :=
  hexEncode (hmacSha3x384 (strBytes secret) (strBytes payload))

/-- One HTTP header as (name, value). -/
abbrev Header := String × String

/-- src/bitfinex/src/client.rs lines 66-105 (build_headers): the signed
string is API_SIGNATURE_PATH ++ url-path ++ nonce ++ payload (payload
defaults to empty); the headers carry the millisecond nonce in decimal, the
raw API key, and the hex signature. -/
def build_headers (auth : BitfinexAuth) (api : Api) (payload : Option String)
    (nonce : Nat) : List Header :=
  let payload := payload.getD ""
  let signature_path := API_SIGNATURE_PATH ++ api.url_path ++
    toString nonce ++ payload
  let signature := sign_payload auth.api_secret signature_path
  [("accept", "application/json"),
   ("content-type", "application/json"),
   ("bfx-nonce", toString nonce),
   ("bfx-apikey", auth.api_key),
   ("bfx-signature", signature)]

end Bitfinex

/-! ## Coinbase pagination (src/coinbase/src/app/client.rs, response.rs) -/

namespace Coinbase

/-- src/coinbase/src/app/response.rs Pagination (next_uri only; the other
fields are commented out in the source). -/
structure Pagination where
  next_uri : Option String
deriving DecidableEq

/-- src/coinbase/src/app/response.rs CoinbaseResponse. -/
structure CoinbaseResponse (α : Type) where
  pagination : Option Pagination
  data : List α
deriving DecidableEq

/-- The continuation cursor a response carries: the next_uri of its
pagination metadata, when both are present. -/
def nextUriOf (r : CoinbaseResponse α) : Option String :=
  r.pagination.bind (fun p => p.next_uri)

/-- src/coinbase/src/app/client.rs lines 44-65 (the accounts /
transactions loop body): issue the request for the current uri, append the
page's data, and continue with next_uri while one is present. The server is
a function from uri to response; fuel bounds the number of round trips so
the model stays total — none means the chain did not finish within fuel. -/
def paginateLoop (server : String → CoinbaseResponse α) :
    Nat → String → List α → Option (List α)
  | 0, _, _ => none
  | fuel + 1, uri, acc =>
      let res := server uri
      let acc := acc ++ res.data
      match nextUriOf res with
      | some next => paginateLoop server fuel next acc
      | none => some acc

/-- src/coinbase/src/app/client.rs accounts: the pagination loop started at
the fixed first-page uri with an empty accumulator. -/
def accounts (server : String → CoinbaseResponse α) (fuel : Nat) :
    Option (List α) :=
  paginateLoop server fuel "/v2/accounts" []

/-- src/coinbase/src/app/client.rs transactions: the same loop started at
the account's transactions uri. -/
def transactions (server : String → CoinbaseResponse α) (fuel : Nat)
    (account_id : String) : Option (List α) :=
  paginateLoop server fuel ("/v2/accounts/" ++ account_id ++ "/transactions") []

/-- The server serves the given chain of pages from the given uri: each page
is returned for the current uri, and every page but the last carries a
next_uri pointing at the page after it; the last page carries none. -/
def ServesChain (server : String → CoinbaseResponse α) :
    String → List (CoinbaseResponse α) → Prop
  | _, [] => False
  | uri, [p] => server uri = p ∧ nextUriOf p = none
  | uri, p :: q :: rest =>
      server uri = p ∧
        ∃ u, nextUriOf p = some u ∧ ServesChain server u (q :: rest)

end Coinbase

/-! ## Credential Debug renderings (src/binance/src/auth.rs,
src/bitfinex/src/auth.rs, src/okx/src/auth.rs) -/

/-- Rendering of Rust debug_struct: the struct name alone when no fields
were added (as in all three credential Debug impls), otherwise the name
followed by the field list. -/
def debugStructRender (name : String) (fields : List (String × String)) :
    String :=
  if fields.isEmpty then name
  else
    name ++ " \x7b " ++
      String.intercalate ", " (fields.map (fun p => p.1 ++ ": " ++ p.2)) ++
      " \x7d"

/-- src/binance/src/auth.rs BinanceAuth: None or ApiKeys. -/
inductive BinanceAuth where
  | noAuth
  | apiKeys (api_key secret_key : String)
deriving DecidableEq

/-- src/binance/src/auth.rs lines 22-26: the Debug impl writes
debug_struct("Auth") and finishes without adding any field. -/
def BinanceAuth.debugFmt (_a : BinanceAuth) : String :=
  debugStructRender "Auth" []

/-- src/bitfinex/src/auth.rs lines 24-28: debug_struct("BitfinexAuth"),
no fields. -/
def Bitfinex.BitfinexAuth.debugFmt (_a : Bitfinex.BitfinexAuth) : String :=
  debugStructRender "BitfinexAuth" []

/-- src/okx/src/auth.rs lines 28-32: debug_struct("OkxApiCredentials"),
no fields. -/
def Okx.OkxApiCredentials.debugFmt (_a : Okx.OkxApiCredentials) : String :=
  debugStructRender "OkxApiCredentials" []

/-! ## Theorems for the specification's claims -/

set_option maxRecDepth 8000
set_option maxHeartbeats 2000000

/-- Helper for claim C1: for every deficit reachable with declared weight 20
(1 ≤ deficit ≤ 20), the f64 computation
(deficit as f64 / 6000.0 * 60000.0) as u64 evaluates to exactly
deficit * 10, the untruncated exact value. (The first deficit where the
floating-point truncation falls below the exact value is 47.) -/
theorem sleepRaw_eq_mul_ten (d : Nat) (h1 : 1 ≤ d) (h2 : d ≤ 20) :
    f64ToU64 (fpRound (qmul (fpRound (qdiv (Rat.divInt (d : Int) 1)
      (Rat.divInt 6000 1))) (Rat.divInt 60000 1))) = d * 10 := by
  interval_cases d <;> decide

/-- Claim C1: every Binance API call declares weight 20; a missing
used-weight header counts as used = 0; a response is accepted exactly when
available = 6000 - used (saturating) is at least the declared weight;
otherwise the dispatcher defers with deficit = weight - available and sleeps
max(200 ms, deficit / 6000 * 60000 ms); and for used = 5990 with weight 20
it computes available = 10, deficit = 10 and sleeps exactly 200 ms. -/
theorem binance_rate_limit_dispatch :
    (∀ s : Binance.Spot, s.request_weight = 20) ∧
    Binance.parseUsedWeight none = 0 ∧
    (∀ hdr w, Binance.rateLimitDecision hdr w = .accept ↔
      w ≤ Binance.MAX_WEIGHT_PER_MIN - Binance.parseUsedWeight hdr) ∧
    (∀ hdr, Binance.MAX_WEIGHT_PER_MIN - Binance.parseUsedWeight hdr < 20 →
      Binance.rateLimitDecision hdr 20 =
        .defer ⟨Binance.parseUsedWeight hdr,
                6000 - Binance.parseUsedWeight hdr,
                20 - (6000 - Binance.parseUsedWeight hdr),
                max 200 ((20 - (6000 - Binance.parseUsedWeight hdr)) * 60000 / 6000)⟩) ∧
    Binance.rateLimitDecision (some "5990") 20 = .defer ⟨5990, 10, 10, 200⟩ := by
  refine ⟨fun s => by cases s <;> rfl, rfl, ?_, ?_, by decide⟩
  · intro hdr w
    by_cases h : w ≤ Binance.MAX_WEIGHT_PER_MIN - Binance.parseUsedWeight hdr <;>
      simp [Binance.rateLimitDecision, h]
  · intro hdr h
    have h20 : ¬ (20 ≤ Binance.MAX_WEIGHT_PER_MIN - Binance.parseUsedWeight hdr) := by
      omega
    simp only [Binance.rateLimitDecision, if_neg h20]
    have hd1 : 1 ≤ 20 - (Binance.MAX_WEIGHT_PER_MIN - Binance.parseUsedWeight hdr) := by
      have : Binance.MAX_WEIGHT_PER_MIN = 6000 := rfl
      omega
    have hd2 : 20 - (Binance.MAX_WEIGHT_PER_MIN - Binance.parseUsedWeight hdr) ≤ 20 := by
      omega
    rw [sleepRaw_eq_mul_ten _ hd1 hd2]
    have hMAX : Binance.MAX_WEIGHT_PER_MIN = 6000 := rfl
    rw [hMAX]
    have hdiv : (20 - (6000 - Binance.parseUsedWeight hdr)) * 60000 / 6000
        = (20 - (6000 - Binance.parseUsedWeight hdr)) * 10 := by
      rw [Nat.mul_div_assoc _ (by norm_num : 6000 ∣ 60000)]
    rw [hdiv, Nat.max_comm]

/-- Witness for claim C1 at used = 5990, weight 20. -/
theorem binance_rate_limit_dispatch_witness :
    Binance.MAX_WEIGHT_PER_MIN - Binance.parseUsedWeight (some "5990") < 20 ∧
    Binance.rateLimitDecision (some "5990") 20 =
      .defer ⟨Binance.parseUsedWeight (some "5990"),
              6000 - Binance.parseUsedWeight (some "5990"),
              20 - (6000 - Binance.parseUsedWeight (some "5990")),
              max 200 ((20 - (6000 - Binance.parseUsedWeight (some "5990"))) * 60000 / 6000)⟩ :=
  ⟨by decide, binance_rate_limit_dispatch.2.2.2.1 (some "5990") (by decide)⟩

/-- Claim C2: OKX request signing formats the timestamp as ISO-8601 with
millisecond precision and a literal Z, signs timestamp + method + path +
body with HMAC-SHA256 under the secret, and standard-base64-encodes the
digest; on the documented known vector it returns exactly the expected
signature. -/
theorem okx_signature_known_vector :
    Okx.format_timestamp ⟨2020, 12, 8, 9, 8, 57, 715⟩
      = "2020-12-08T09:08:57.715Z" ∧
    Okx.generate_signature "22582BD0CFF14C41EDBF1AB98506286D"
      ⟨2020, 12, 8, 9, 8, 57, 715⟩ "GET" "/api/v5/account/balance?ccy=BTC" ""
      = "HiZhvSfMtWJA3uUIVXV3a/bSXNPCWvYFXoGCVS8V4zY=" :=
  ⟨rfl, by rfl⟩

/-- Claim C9: the Debug renderings of all three credential types are
constant strings, independent of every field; hence any two credentials of
the same exchange — in particular two differing only in api_key,
secret/api_secret or passphrase — produce identical debug output, and the
output carries no data derived from any secret field. -/
theorem credentials_debug_redaction :
    (∀ a b : BinanceAuth, a.debugFmt = b.debugFmt) ∧
    (∀ a : BinanceAuth, a.debugFmt = "Auth") ∧
    (∀ a b : Bitfinex.BitfinexAuth, a.debugFmt = b.debugFmt) ∧
    (∀ a : Bitfinex.BitfinexAuth, a.debugFmt = "BitfinexAuth") ∧
    (∀ a b : Okx.OkxApiCredentials, a.debugFmt = b.debugFmt) ∧
    (∀ a : Okx.OkxApiCredentials, a.debugFmt = "OkxApiCredentials") :=
  ⟨fun _ _ => rfl, fun _ => rfl, fun _ _ => rfl, fun _ => rfl,
   fun _ _ => rfl, fun _ => rfl⟩

/-- Claim C3: decoding the documented literal 12-element positional array as
a Bitfinex Trade succeeds with id 402088407, symbol tBTCUST, amount -0.2,
is_maker false and cid some 1234; and in general the maker flag of a decoded
trade is true exactly when the ninth positional slot equals 1. -/
theorem bitfinex_positional_trade_decoding :
    Bitfinex.decodeTrade (.arr [.num 402088407, .str "tBTCUST",
      .num 1574963975602, .num 34938060782, .num (mkRat (-2) 10),
      .num (mkRat 15357 100), .str "MARKET", .num (mkRat 0 10),
      .num (-1), .num (mkRat (-61668) 1000000), .str "USD", .num 1234])
      = some { id := 402088407, symbol := "tBTCUST", timestamp := 1574963975602,
               order_id := 34938060782, amount := mkRat (-2) 10,
               price := mkRat 15357 100, order_type := "MARKET",
               order_price := 0, is_maker := false,
               fee := mkRat (-61668) 1000000, fee_currency := "USD",
               cid := some 1234 } ∧
    (∀ a : Bitfinex.TradeArray,
      (Bitfinex.tradeFromArray a).is_maker = true ↔ a.f8 = 1) := by
  constructor
  · decide
  · intro a
    simp [Bitfinex.tradeFromArray]

/-- Helper for claim C4: a rename-table lookup misses every key outside the
table. -/
theorem statusTable_find_none {β : Type} (table : List (String × β)) (s : String)
    (hs : s ∉ table.map (fun p => p.1)) :
    table.find? (fun p => p.1 == s) = none := by
  rw [List.find?_eq_none]
  intro a ha
  simp only [beq_iff_eq]
  intro h
  exact hs (List.mem_map.mpr ⟨a, ha, h⟩)

/-- Claim C4: for an OKX deposit (or withdrawal) record, any state value
outside the known status-code enumeration — for example the string "999" —
still lets the whole record decode successfully, with the state field
becoming none; indeed the record decodes for an arbitrary state slot, the
state being whatever the tolerant optional-enum decoder yields. -/
theorem okx_unknown_enum_tolerance :
    (∀ v : Json,
      Okx.decodeDepositTransaction (.obj [("amt", .str "1"), ("ccy", .str "BTC"),
        ("depId", .str "88****33"), ("state", v), ("ts", .str "1674038705000"),
        ("txId", .str "fee235b3e812********857d36bb0426917f0df1802")])
        = some { id := "88****33", currency := "BTC", amount := 1,
                 state := Okx.decodeOptionalEnum Okx.decodeDepositStatus (some v),
                 tx_id := "fee235b3e812********857d36bb0426917f0df1802",
                 timestamp := 1674038705000 }) ∧
    (∀ v : Json,
      Okx.decodeWithdrawalTransaction (.obj [("fee", .str "0.00007"),
        ("ccy", .str "BTC"), ("amt", .str "0.029809"),
        ("txId", .str "35c******b360a174d"), ("state", v),
        ("ts", .str "1655251200000"), ("wdId", .str "15447421")])
        = some { id := "15447421", currency := "BTC",
                 amount := mkRat 29809 1000000, fee := mkRat 7 100000,
                 state := Okx.decodeOptionalEnum Okx.decodeWithdrawalStatus (some v),
                 tx_id := "35c******b360a174d", timestamp := 1655251200000 }) ∧
    (∀ s : String, s ∉ ["0", "1", "2", "8", "11", "12", "13", "14", "17"] →
      Okx.decodeDepositStatus (.str s) = none) ∧
    (∀ s : String,
      s ∉ ["0", "1", "2", "4", "5", "6", "7", "8", "9", "10", "12", "15",
           "16", "17", "19", "-1", "-2", "-3"] →
      Okx.decodeWithdrawalStatus (.str s) = none) ∧
    Okx.decodeOptionalEnum Okx.decodeDepositStatus (some (.str "999")) = none ∧
    Okx.decodeOptionalEnum Okx.decodeWithdrawalStatus (some (.str "999")) = none := by
  refine ⟨fun v => by rfl, fun v => by rfl, ?_, ?_, rfl, rfl⟩
  · intro s hs
    have : s ∉ Okx.depositStatusTable.map (fun p => p.1) := by
      simpa [Okx.depositStatusTable] using hs
    simp [Okx.decodeDepositStatus, statusTable_find_none _ _ this]
  · intro s hs
    have : s ∉ Okx.withdrawalStatusTable.map (fun p => p.1) := by
      simp only [List.mem_cons, List.mem_singleton, not_or] at hs
      simp [Okx.withdrawalStatusTable]
      tauto
    simp [Okx.decodeWithdrawalStatus, statusTable_find_none _ _ this]

/-- Witness for claim C4 at the unknown status code "999": it is outside
both known enumerations and decodes to none for both status kinds. -/
theorem okx_unknown_enum_tolerance_witness :
    Okx.decodeDepositStatus (.str "999") = none ∧
    Okx.decodeWithdrawalStatus (.str "999") = none :=
  ⟨okx_unknown_enum_tolerance.2.2.1 "999" (by decide),
   okx_unknown_enum_tolerance.2.2.2.1 "999" (by decide)⟩

/-- Claim C5: every HTTP-200 OKX response whose envelope code is not "0"
yields a typed remote-API error — never the data payload — carrying the
envelope's code and message together with a detail string; the detail is
the first error item's sMsg when the data field parses as an error-record
list, and the fixed could-not-parse message when that parse fails. -/
theorem okx_error_envelope {α : Type} (decodeData : Json → Option α)
    (r : Okx.OkxApiResponse) (h : r.code ≠ "0") :
    Okx.handleOkResponse decodeData r =
      .error (.okxApiError r.code r.msg (Okx.extractSmg r.data)) ∧
    (∀ v, Okx.handleOkResponse decodeData r ≠ .ok v) ∧
    (∀ e es s, Okx.decodeOkxApiErrorList r.data = some (e :: es) →
      e.s_msg = some s → Okx.extractSmg r.data = s) ∧
    (Okx.decodeOkxApiErrorList r.data = none →
      Okx.extractSmg r.data = "Failed to parse error message") := by
  have h1 : Okx.handleOkResponse decodeData r =
      .error (.okxApiError r.code r.msg (Okx.extractSmg r.data)) := by
    simp [Okx.handleOkResponse, h]
  refine ⟨h1, ?_, ?_, ?_⟩
  · intro v
    rw [h1]
    simp
  · intro e es s he hs
    simp [Okx.extractSmg, he, hs]
  · intro he
    simp [Okx.extractSmg, he]

/-- Witness for claim C5: a concrete non-"0" envelope (code "1") with a
parsable error list yields the typed error carrying the first item's sMsg,
and a concrete envelope whose data is not an error list falls back to the
fixed could-not-parse message. -/
theorem okx_error_envelope_witness :
    Okx.handleOkResponse (fun _ => (none : Option Nat))
      ⟨"1", "All operations failed",
       .arr [.obj [("sCode", .str "51000"),
                   ("sMsg", .str "Parameter ordId error")]]⟩
      = .error (.okxApiError "1" "All operations failed"
          "Parameter ordId error") ∧
    Okx.extractSmg (.str "not an error list")
      = "Failed to parse error message" :=
  ⟨((okx_error_envelope (fun _ => (none : Option Nat))
      ⟨"1", "All operations failed",
       .arr [.obj [("sCode", .str "51000"),
                   ("sMsg", .str "Parameter ordId error")]]⟩
      (by decide)).1).trans (by rfl),
    (okx_error_envelope (fun _ => (none : Option Nat))
      ⟨"1", "irrelevant", .str "not an error list"⟩ (by decide)).2.2.2 rfl⟩

/-- Helper for claim C6: the pagination loop, started anywhere with any
accumulator, appends the concatenated data of a served chain of pages. -/
theorem paginateLoop_chain {α : Type} (server : String → Coinbase.CoinbaseResponse α) :
    ∀ (ps : List (Coinbase.CoinbaseResponse α)) (uri : String) (acc : List α)
      (fuel : Nat), Coinbase.ServesChain server uri ps → ps.length ≤ fuel →
      Coinbase.paginateLoop server fuel uri acc =
        some (acc ++ ps.flatMap (fun p => p.data)) := by
  intro ps
  induction ps with
  | nil =>
      intro uri acc fuel hc _
      exact absurd hc (by simp [Coinbase.ServesChain])
  | cons p rest ih =>
      intro uri acc fuel hc hf
      cases fuel with
      | zero => simp at hf
      | succ f =>
          cases rest with
          | nil =>
              obtain ⟨hs, hn⟩ := hc
              simp [Coinbase.paginateLoop, hs, hn]
          | cons q rest2 =>
              obtain ⟨hs, u, hu, hrest⟩ := hc
              have hf2 : (q :: rest2).length ≤ f := by simpa using hf
              simp [Coinbase.paginateLoop, hs, hu,
                ih u (acc ++ p.data) f hrest hf2]

/-- Claim C6: whenever the server serves a chain of pages (each page but the
last carrying a next_uri to the following page, the last carrying none), the
Coinbase accounts facade call — and likewise transactions — follows the
next_uri cursors and returns exactly the concatenation of the data arrays of
all fetched pages in server order, terminating at the page with no
next_uri. -/
theorem coinbase_pagination {α : Type}
    (server : String → Coinbase.CoinbaseResponse α)
    (ps : List (Coinbase.CoinbaseResponse α)) (fuel : Nat)
    (account_id : String) :
    (Coinbase.ServesChain server "/v2/accounts" ps → ps.length ≤ fuel →
      Coinbase.accounts server fuel = some (ps.flatMap (fun p => p.data))) ∧
    (Coinbase.ServesChain server
        ("/v2/accounts/" ++ account_id ++ "/transactions") ps →
      ps.length ≤ fuel →
      Coinbase.transactions server fuel account_id
        = some (ps.flatMap (fun p => p.data))) := by
  constructor
  · intro hc hf
    simpa [Coinbase.accounts] using
      paginateLoop_chain server ps "/v2/accounts" [] fuel hc hf
  · intro hc hf
    simpa [Coinbase.transactions] using
      paginateLoop_chain server ps
        ("/v2/accounts/" ++ account_id ++ "/transactions") [] fuel hc hf

/-- Witness for claim C6: a concrete two-page accounts chain concatenates
in server order, and a concrete two-page transactions chain does as well. -/
theorem coinbase_pagination_witness :
    Coinbase.accounts
      (fun uri => if uri = "/v2/accounts"
        then ⟨some ⟨some "/v2/accounts?starting_after=p2"⟩, [1, 2]⟩
        else ⟨some ⟨none⟩, [3]⟩) 2 = some [1, 2, 3] ∧
    Coinbase.transactions
      (fun uri => if uri = "/v2/accounts/acct1/transactions"
        then ⟨some ⟨some "/v2/accounts/acct1/transactions?starting_after=t2"⟩, [10]⟩
        else ⟨some ⟨none⟩, [20, 30]⟩) 5 "acct1" = some [10, 20, 30] := by
  constructor
  · exact ((coinbase_pagination
      (fun uri => if uri = "/v2/accounts"
        then ⟨some ⟨some "/v2/accounts?starting_after=p2"⟩, [1, 2]⟩
        else ⟨some ⟨none⟩, [3]⟩)
      [⟨some ⟨some "/v2/accounts?starting_after=p2"⟩, [1, 2]⟩, ⟨some ⟨none⟩, [3]⟩]
      2 "unused").1
      ⟨by decide, "/v2/accounts?starting_after=p2", by decide, by decide, by decide⟩
      (by decide)).trans (by decide)
  · exact ((coinbase_pagination
      (fun uri => if uri = "/v2/accounts/acct1/transactions"
        then ⟨some ⟨some "/v2/accounts/acct1/transactions?starting_after=t2"⟩, [10]⟩
        else ⟨some ⟨none⟩, [20, 30]⟩)
      [⟨some ⟨some "/v2/accounts/acct1/transactions?starting_after=t2"⟩, [10]⟩,
       ⟨some ⟨none⟩, [20, 30]⟩]
      5 "acct1").2
      ⟨by decide, "/v2/accounts/acct1/transactions?starting_after=t2",
        by decide, by decide, by decide⟩
      (by decide)).trans (by decide)

/-- Claim C7, evaluated at a failing input: the Bitfinex signature is built
over the documented string API_SIGNATURE_PATH ++ url-path ++ nonce ++ body
and shipped as bfx-signature next to the decimal millisecond bfx-nonce and
the raw bfx-apikey — but the digest the code computes is HMAC over the sha3
crate Sha3_384 (Keccak SHA3-384), which differs from the HMAC-SHA384
(FIPS 180-4) digest that the claim, the spec and the exchange's documented
scheme name: at secret "secret", endpoint wallets, nonce 1700000000000 and
empty body the two digests disagree. (This lemma evaluates the code's
signature at that input; the claim theorem below assembles the headers and
the divergence.) -/
theorem bitfinex_sign_payload_eval :
    Bitfinex.sign_payload "secret" "/api/v2/auth/r//v2/auth/r/wallets1700000000000"
      = "bd4f778eef98b61c204327e9f64e8577b596040444e9b1866a91510c409e1d24c82ef94dfd0b8b2502309431dc301120" := by
  rfl

/-- Helper for claim C7: the HMAC-SHA384 (FIPS 180-4) digest of the same
signed string under the same secret, hex-encoded. -/
theorem bitfinex_hmacSha384_eval :
    hexEncode (hmacSha384 (strBytes "secret")
        (strBytes "/api/v2/auth/r//v2/auth/r/wallets1700000000000"))
      = "e8a2c46468c2f35622337c412a5bbc88adcfef0d9952e5dac5ad9976897388e0c10453a7d6178d9590a9b037beb3ae0b" := by
  rfl

theorem bitfinex_sign_payload_sha3_divergence :
    Bitfinex.build_headers ⟨"apikey123", "secret"⟩ .wallets none 1700000000000 =
      [("accept", "application/json"),
       ("content-type", "application/json"),
       ("bfx-nonce", "1700000000000"),
       ("bfx-apikey", "apikey123"),
       ("bfx-signature",
        Bitfinex.sign_payload "secret" "/api/v2/auth/r//v2/auth/r/wallets1700000000000")] ∧
    Bitfinex.sign_payload "secret" "/api/v2/auth/r//v2/auth/r/wallets1700000000000"
      = "bd4f778eef98b61c204327e9f64e8577b596040444e9b1866a91510c409e1d24c82ef94dfd0b8b2502309431dc301120" ∧
    hexEncode (hmacSha384 (strBytes "secret")
        (strBytes "/api/v2/auth/r//v2/auth/r/wallets1700000000000"))
      = "e8a2c46468c2f35622337c412a5bbc88adcfef0d9952e5dac5ad9976897388e0c10453a7d6178d9590a9b037beb3ae0b" ∧
    Bitfinex.sign_payload "secret" "/api/v2/auth/r//v2/auth/r/wallets1700000000000"
      ≠ hexEncode (hmacSha384 (strBytes "secret")
          (strBytes "/api/v2/auth/r//v2/auth/r/wallets1700000000000")) := by
  refine ⟨rfl, bitfinex_sign_payload_eval, bitfinex_hmacSha384_eval, ?_⟩
  rw [bitfinex_sign_payload_eval, bitfinex_hmacSha384_eval]
  decide

/-- Helper for claim C8: every request the send_req loop puts on the wire is
the same value — the trace is a replication of the one request it was
given. -/
theorem sendReqTrace_replicate {α : Type} (req : α) (w : Nat)
    (responses : List (Option String)) :
    Binance.sendReqTrace req w responses =
      List.replicate (Binance.sendReqTrace req w responses).length req := by
  induction responses with
  | nil => rfl
  | cons h rest ih =>
      simp only [Binance.sendReqTrace]
      cases Binance.rateLimitDecision h w with
      | accept => simp
      | defer info =>
          rw [List.length_cons, List.replicate_succ]
          exact congrArg _ ih

/-- Claim C8 counterexample: sign an account request at timestamp
1700000000000; the first response reports used weight 6000, forcing a
deferral, and the second reports 0. The dispatcher sends two requests and
the second is byte-identical to the first (same parameter string, same
timestamp, same signature) — while re-signing at the later timestamp
1700000000201, as the claim asserts happens, would have produced a
different request. -/
theorem binance_no_resign_counterexample :
    Binance.getSignedTrace "sec" .account
        (some (Binance.build_signed_request [] 5000 1700000000000))
        [some "6000", some "0"]
      = [Binance.sign_request "sec" Binance.Spot.account.http_path
           (some (Binance.build_signed_request [] 5000 1700000000000)),
         Binance.sign_request "sec" Binance.Spot.account.http_path
           (some (Binance.build_signed_request [] 5000 1700000000000))] ∧
    Binance.sign_request "sec" Binance.Spot.account.http_path
        (some (Binance.build_signed_request [] 5000 1700000000201))
      ≠ Binance.sign_request "sec" Binance.Spot.account.http_path
          (some (Binance.build_signed_request [] 5000 1700000000000)) :=
  ⟨by decide, by decide⟩

/-- Claim C8 (amended): on every rate-limit deferral iteration the Binance
dispatcher re-issues the byte-identical request: the signed URL — parameter
string, original millisecond timestamp, signature — is computed once before
the loop, and every request the loop sends equals that one URL; no
re-signing with a fresh timestamp occurs. -/
theorem binance_resend_identical_request (secret : String) (api : Binance.Spot)
    (request : Option String) (responses : List (Option String)) :
    Binance.getSignedTrace secret api request responses =
      List.replicate (Binance.getSignedTrace secret api request responses).length
        (Binance.sign_request secret api.http_path request) :=
  sendReqTrace_replicate (Binance.sign_request secret api.http_path request)
    api.request_weight responses
